import Mathlib

/-!
Verification of the vpn-commander core against its specification.

The embedding follows the Go sources:
* `vpn_manager.go` (VPNManager): `isTargetRule`, `GetStatus`, `setOutboundTag`
  (shared by `EnableVPN`/`DisableVPN`), `ValidateConfiguration`.
* the Telegram bot file: the authorization cache
  (`authorizeUser`, `isUserAuthorized`, `getCachedStatus`, `updateCachedStatus`)
  and the service-status classification in `handleServiceStatus`.
* `ssh_client.go`: the output sanitization in `GetServiceStatus`.

Remote I/O (SSH reads/writes, JSON (un)marshalling, the service restart) is
modelled by explicit outcome parameters: a `ReadParse` value stands for the
result of `sshClient.ReadFile` followed by `json.Unmarshal`, and Booleans
stand for the success of `sshClient.WriteFile` and `restartXrayService`.
-/

namespace VpnCommander

/-- Type `VPNStatus` from vpn_manager.go: enabled / disabled / unknown. -/
inductive VPNStatus where
  | enabled
  | disabled
  | unknown
deriving DecidableEq, Repr

/-- A JSON value, modelling the Go `interface{}` payloads (`Domain`, `IP`,
`Protocol`) that are parsed and re-serialized verbatim but never interpreted. -/
inductive Json where
  | null
  | bool (b : Bool)
  | num (n : Int)
  | str (s : String)
  | arr (elems : List Json)
  | obj (fields : List (String × Json))

/-- Structure `Rule` from vpn_manager.go: one routing rule of the Xray configuration. -/
structure Rule where
  type : String
  inboundTag : List String
  outboundTag : String
  network : String
  domain : Option Json
  ip : Option Json
  port : String
  protocol : Option Json

instance : Inhabited Rule :=
  ⟨{ type := "", inboundTag := [], outboundTag := "", network := "",
     domain := none, ip := none, port := "", protocol := none }⟩

/-- Structure `RoutingConfig` from vpn_manager.go. -/
structure RoutingConfig where
  domainStrategy : String
  rules : List Rule

/-- Structure `XrayConfig` from vpn_manager.go: `Routing` is a nullable pointer. -/
structure XrayConfig where
  routing : Option RoutingConfig

/-- Errors returned by the VPN manager operations (Go returns `error` values
built with `fmt.Errorf`; we distinguish them by their message). -/
inductive VMErr where
  | readFailed
  | parseFailed
  | noRoutingConfiguration
  | noRoutingRules
  | lastRuleNotTarget
  | writeFailed
  | targetRuleNotFound
deriving DecidableEq, Repr

/-- Outcome of `sshClient.ReadFile` followed by `json.Unmarshal` on the
routing configuration file. -/
inductive ReadParse where
  | readFail
  | parseFail
  | parsed (config : XrayConfig)

/-- Function `isTargetRule` from vpn_manager.go: the loop sets `hasRedirect` /
`hasTproxy` while scanning `rule.InboundTag`, then also requires
`rule.Network == "tcp,udp"`. -/
def isTargetRule (rule : Rule) : Bool :=
  let flags := rule.inboundTag.foldl
    (fun (p : Bool × Bool) tag =>
      if tag == "redirect" then (true, p.2)
      else if tag == "tproxy" then (p.1, true)
      else p)
    (false, false)
  flags.1 && flags.2 && (rule.network == "tcp,udp")

/-- The rule scan inside `GetStatus`: first rule satisfying `isTargetRule`
wins; its outbound tag is mapped through the switch, and if no rule matches
the loop falls through to the "target routing rule not found" error. -/
def statusFromRules : List Rule → VPNStatus × Option VMErr
  | [] => (.unknown, some .targetRuleNotFound)
  | rule :: rest =>
    if isTargetRule rule then
      if rule.outboundTag == "vless-reality" then (.enabled, none)
      else if rule.outboundTag == "direct" then (.disabled, none)
      else (.unknown, none)
    else statusFromRules rest

/-- Function `GetStatus` from vpn_manager.go, as a function of the read+parse outcome.
Returns the `(VPNStatus, error)` pair of the Go function. -/
def GetStatus (rp : ReadParse) : VPNStatus × Option VMErr :=
  match rp with
  | .readFail => (.unknown, some .readFailed)
  | .parseFail => (.unknown, some .parseFailed)
  | .parsed config =>
    match config.routing with
    | none => (.unknown, some .noRoutingConfiguration)
    | some routing => statusFromRules routing.rules

/-- Result of `setOutboundTag`: the returned `error` (`none` = success), the
configuration written back by `sshClient.WriteFile` (`none` = no write
happened), and whether the post-write `restartXrayService` call succeeded
(`none` = it was never reached). -/
structure SetResult where
  err : Option VMErr
  written : Option XrayConfig
  restartSucceeded : Option Bool
deriving Inhabited

/-- Function `setOutboundTag` from vpn_manager.go, as a function of the read+parse
outcome and of the success of the remote write and of the service restart.
A restart failure is only logged; it never changes the returned error. -/
def setOutboundTag (rp : ReadParse) (writeOk restartOk : Bool)
    (outboundTag : String) : SetResult :=
  match rp with
  | .readFail => ⟨some .readFailed, none, none⟩
  | .parseFail => ⟨some .parseFailed, none, none⟩
  | .parsed config =>
    match config.routing with
    | none => ⟨some .noRoutingConfiguration, none, none⟩
    | some routing =>
      if routing.rules.length == 0 then ⟨some .noRoutingRules, none, none⟩
      else
        let lastRuleIndex := routing.rules.length - 1
        let lastRule := routing.rules.getD lastRuleIndex default
        if !isTargetRule lastRule then ⟨some .lastRuleNotTarget, none, none⟩
        else
          let updatedRules :=
            routing.rules.set lastRuleIndex { lastRule with outboundTag := outboundTag }
          let updatedConfig : XrayConfig :=
            { config with routing := some { routing with rules := updatedRules } }
          if !writeOk then ⟨some .writeFailed, none, none⟩
          else ⟨none, some updatedConfig, some restartOk⟩

/-- Function `EnableVPN` from vpn_manager.go. -/
def EnableVPN (rp : ReadParse) (writeOk restartOk : Bool) : SetResult :=
  setOutboundTag rp writeOk restartOk "vless-reality"

/-- Function `DisableVPN` from vpn_manager.go. -/
def DisableVPN (rp : ReadParse) (writeOk restartOk : Bool) : SetResult :=
  setOutboundTag rp writeOk restartOk "direct"

/-- Function `ValidateConfiguration` from vpn_manager.go: read, parse, require a
routing section, and scan for a target rule (the loop breaks at the first
match). -/
def ValidateConfiguration (rp : ReadParse) : Option VMErr :=
  match rp with
  | .readFail => some .readFailed
  | .parseFail => some .parseFailed
  | .parsed config =>
    match config.routing with
    | none => some .noRoutingConfiguration
    | some routing =>
      if routing.rules.any isTargetRule then none
      else some .targetRuleNotFound

/-! ### Session authorization cache

The Telegram bot keeps `authorizedUsers map[int64]VPNStatus` guarded by a
reader/writer mutex; we model the map as a function from user ids to
optional statuses (absence = never authorized). -/

/-- The `authorizedUsers` map of the Telegram bot. -/
def AuthCache := Int → Option VPNStatus

/-- The cache at process start: no user is authorized. -/
def emptyCache : AuthCache := fun _ => none

/-- Function `authorizeUser`: unconditionally insert/overwrite the entry. -/
def authorizeUser (c : AuthCache) (userID : Int) (initialStatus : VPNStatus) :
    AuthCache :=
  fun u => if u = userID then some initialStatus else c u

/-- Function `isUserAuthorized`: key-presence test on the map. -/
def isUserAuthorized (c : AuthCache) (userID : Int) : Bool :=
  (c userID).isSome

/-- Function `getCachedStatus`: the stored status, or `VPNStatusUnknown` when the
user has no entry. -/
def getCachedStatus (c : AuthCache) (userID : Int) : VPNStatus :=
  match c userID with
  | some status => status
  | none => .unknown

/-- Function `updateCachedStatus`: update the entry only when it already exists. -/
def updateCachedStatus (c : AuthCache) (userID : Int) (status : VPNStatus) :
    AuthCache :=
  match c userID with
  | some _ => fun u => if u = userID then some status else c u
  | none => c

/-- A state-mutating operation on the authorization cache (reads leave the
cache unchanged, so only the two writers appear). -/
inductive CacheOp where
  | authorize (userID : Int) (status : VPNStatus)
  | update (userID : Int) (status : VPNStatus)

/-- Apply one cache operation. -/
def applyCacheOp (c : AuthCache) : CacheOp → AuthCache
  | .authorize u s => authorizeUser c u s
  | .update u s => updateCachedStatus c u s

/-! ### Service-status sanitization and classification

`SSHClient.GetServiceStatus` splits the raw `xkeen -status` output into
lines, trims each, drops empty lines and the `ps: applet not found`
diagnostics, and re-joins with newlines. `handleServiceStatus` then strips
the ANSI color sequences, trims, and classifies by substring matching.
Strings are handled as `List Char`. -/

/-- Whitespace characters trimmed by Go's `strings.TrimSpace`. -/
def isSpaceChar (c : Char) : Bool :=
  c == ' ' || c == '\t' || c == '\n' || c == '\r' ||
  c == Char.ofNat 11 || c == Char.ofNat 12 ||
  c == Char.ofNat 0x85 || c == Char.ofNat 0xA0

/-- Model of Go `strings.TrimSpace` on a character list. -/
def trimSpace (s : List Char) : List Char :=
  ((s.dropWhile isSpaceChar).reverse.dropWhile isSpaceChar).reverse

/-- Is `pat` a prefix of `s`? -/
def listPrefixOf : List Char → List Char → Bool
  | [], _ => true
  | _ :: _, [] => false
  | a :: as, b :: bs => a == b && listPrefixOf as bs

/-- Model of Go `strings.Contains`: does `s` contain `pat` as a contiguous substring? -/
def listContains (pat : List Char) : List Char → Bool
  | [] => listPrefixOf pat []
  | s@(_ :: rest) => listPrefixOf pat s || listContains pat rest

/-- Model of Go `strings.ReplaceAll`, for a non-empty pattern: replace every
non-overlapping occurrence of `pat` by `rep`, scanning left to right.
(All patterns used by the program are non-empty; an empty pattern is
left untouched here.) -/
def replaceAll (pat rep : List Char) : List Char → List Char
  | [] => []
  | c :: cs =>
    if pat ≠ [] ∧ listPrefixOf pat (c :: cs) then
      rep ++ replaceAll pat rep (cs.drop (pat.length - 1))
    else
      c :: replaceAll pat rep cs
termination_by s => s.length
decreasing_by
  · simp only [List.length_drop, List.length_cons]
    omega
  · simp only [List.length_cons]
    omega

/-- Model of Go `strings.Split` at newline separators. -/
def splitOnNewline : List Char → List (List Char)
  | [] => [[]]
  | c :: cs =>
    if c == '\n' then [] :: splitOnNewline cs
    else
      match splitOnNewline cs with
      | [] => [[c]]
      | line :: lines => (c :: line) :: lines

/-- The line filter of `SSHClient.GetServiceStatus`: trim each line, keep
only non-empty lines that mention neither `ps: applet not found` nor
`applet not found`, and join with newlines. -/
def cleanServiceOutput (output : List Char) : List Char :=
  let lines := splitOnNewline output
  let cleanLines := lines.filterMap (fun line =>
    let t := trimSpace line
    if t ≠ [] ∧
       listContains "ps: applet not found".data t = false ∧
       listContains "applet not found".data t = false
    then some t else none)
  List.intercalate "\n".data cleanLines

/-- The ANSI-stripping and trimming of `handleServiceStatus`. -/
def cleanStatusText (status : List Char) : List Char :=
  let s1 := replaceAll "\x1b[31m".data [] status
  let s2 := replaceAll "\x1b[0m".data [] s1
  let s3 := replaceAll "[31m".data [] s2
  let s4 := replaceAll "[0m".data [] s3
  trimSpace s4

/-- The three user-visible outcomes of `handleServiceStatus`. -/
inductive ServiceDecision where
  | running
  | notRunning
  | unknown
deriving DecidableEq, Repr

/-- The classification logic of `handleServiceStatus` applied to the status
text returned by `GetServiceStatus`. -/
def classifyServiceStatus (status : List Char) : ServiceDecision :=
  if listContains "не запущен".data (cleanStatusText status) then .notRunning
  else if listContains "запущен".data (cleanStatusText status) ||
          cleanStatusText status ≠ [] then .running
  else .unknown

/-! ### Spec-side predicate (refinement target for C1)

The specification describes the DefaultRule predicate as: the inbound-tag
set is exactly `{"redirect","tproxy"}` (order-independent, no extras) and
the network equals `"tcp,udp"`. -/

/-- The DefaultRule predicate as the specification words it: both tags
present, no tag other than these two, and the exact network string. -/
def specIsDefaultRule (rule : Rule) : Bool :=
  rule.inboundTag.all (fun t => t == "redirect" || t == "tproxy") &&
  rule.inboundTag.contains "redirect" &&
  rule.inboundTag.contains "tproxy" &&
  (rule.network == "tcp,udp")

/-! ### Concrete documents used by counterexamples and witnesses -/

/-- A well-formed default rule routing to `direct`. -/
def directDefaultRule : Rule :=
  { type := "field", inboundTag := ["redirect", "tproxy"],
    outboundTag := "direct", network := "tcp,udp",
    domain := none, ip := none, port := "", protocol := none }

/-- A well-formed default rule routing to `vless-reality`. -/
def vpnDefaultRule : Rule :=
  { directDefaultRule with outboundTag := "vless-reality" }

/-- A rule that matches `isTargetRule` despite an extra inbound tag. -/
def extraTagRule : Rule :=
  { directDefaultRule with inboundTag := ["redirect", "tproxy", "dns-in"] }

/-- A domain rule that does not match the target predicate. -/
def domainRule : Rule :=
  { type := "field", inboundTag := [], outboundTag := "direct",
    network := "", domain := some (.arr [.str "geosite:category-ads-all"]),
    ip := none, port := "", protocol := none }

/-- A document whose only rule is the default rule with tag `direct`. -/
def singleRuleConfig : XrayConfig :=
  ⟨some ⟨"IPIfNonMatch", [directDefaultRule]⟩⟩

/-- A document containing two rules that satisfy the target predicate. -/
def twoMatchingConfig : XrayConfig :=
  ⟨some ⟨"IPIfNonMatch", [directDefaultRule, vpnDefaultRule]⟩⟩

/-- A document whose last rule fails the predicate while an earlier one
satisfies it. -/
def matchNotLastConfig : XrayConfig :=
  ⟨some ⟨"IPIfNonMatch", [directDefaultRule, domainRule]⟩⟩

/-- A document whose matched rule carries an unrecognized outbound tag. -/
def oddTagConfig : XrayConfig :=
  ⟨some ⟨"IPIfNonMatch", [{ directDefaultRule with outboundTag := "proxy-b" }]⟩⟩

/-- A document with a routing section but no rule matching the predicate. -/
def noMatchConfig : XrayConfig :=
  ⟨some ⟨"IPIfNonMatch", [domainRule]⟩⟩

/-- The written form of `singleRuleConfig` after enabling the VPN. -/
def enabledSingleRuleConfig : XrayConfig :=
  ⟨some ⟨"IPIfNonMatch", [vpnDefaultRule]⟩⟩

/-! ### C1: the target-rule predicate -/

/-- The tag-scanning fold of `isTargetRule` computes exactly the two
"some tag is this literal" disjunctions. -/
theorem foldTags_eq (l : List String) (p : Bool × Bool) :
    l.foldl
      (fun (p : Bool × Bool) tag =>
        if tag == "redirect" then (true, p.2)
        else if tag == "tproxy" then (p.1, true)
        else p) p
    = (p.1 || l.any (· == "redirect"), p.2 || l.any (· == "tproxy")) := by
  induction l generalizing p with
  | nil => simp
  | cons t ts ih =>
    rw [List.foldl_cons, ih]
    by_cases h1 : t = "redirect"
    · subst h1
      have hrt : ("redirect" == "tproxy") = false := by decide
      have hrr : ("redirect" == "redirect") = true := by decide
      simp [hrt, hrr]
    · by_cases h2 : t = "tproxy"
      · subst h2
        have htr : ("tproxy" == "redirect") = false := by decide
        have htt : ("tproxy" == "tproxy") = true := by decide
        simp [htr, htt]
      · have e1 : (t == "redirect") = false := beq_eq_false_iff_ne.mpr h1
        have e2 : (t == "tproxy") = false := beq_eq_false_iff_ne.mpr h2
        simp [e1, e2]

/-- Lemma: `isTargetRule` in terms of tag membership. -/
theorem isTargetRule_iff (rule : Rule) :
    isTargetRule rule = true ↔
      "redirect" ∈ rule.inboundTag ∧ "tproxy" ∈ rule.inboundTag ∧
      rule.network = "tcp,udp" := by
  unfold isTargetRule
  simp only [foldTags_eq]
  simp [List.any_eq_true, beq_iff_eq, and_assoc]

/-- Lemma: `isTargetRule` never inspects the outbound tag. -/
theorem isTargetRule_setOutbound (r : Rule) (t : String) :
    isTargetRule { r with outboundTag := t } = isTargetRule r := rfl

/-- Setting the element at index `xs.length` of `xs ++ [b]`. -/
theorem set_length_append_singleton (xs : List α) (b a : α) :
    (xs ++ [b]).set xs.length a = xs ++ [a] := by
  induction xs with
  | nil => rfl
  | cons x xs ih => simp [List.set, ih]

/-- Setting the last element of a non-empty list replaces it. -/
theorem set_last_eq_dropLast_append (l : List α) (h : l ≠ []) (a : α) :
    l.set (l.length - 1) a = l.dropLast ++ [a] := by
  conv_lhs => rw [← List.dropLast_append_getLast h]
  have hlen : (l.dropLast ++ [l.getLast h]).length - 1 = l.dropLast.length := by
    simp
  rw [hlen, set_length_append_singleton]

/-- The last element of a non-empty list, through `getD`. -/
theorem getD_last_eq_getLast (l : List α) (h : l ≠ []) (d : α) :
    l.getD (l.length - 1) d = l.getLast h := by
  rw [List.getD_eq_getElem?_getD, ← List.getLast?_eq_getElem?,
    List.getLast?_eq_getLast l h]
  rfl

/-- The `GetStatus` scan on a list whose only matching rule is last. -/
theorem statusFromRules_append_last (xs : List Rule) (r : Rule)
    (hxs : ∀ x ∈ xs, isTargetRule x = false) (hr : isTargetRule r = true) :
    statusFromRules (xs ++ [r]) =
      (if r.outboundTag == "vless-reality" then (.enabled, none)
       else if r.outboundTag == "direct" then (.disabled, none)
       else (.unknown, none)) := by
  induction xs with
  | nil => simp [statusFromRules, hr]
  | cons x xs ih =>
    have hx : isTargetRule x = false := hxs x (List.mem_cons_self x xs)
    simp only [List.cons_append, statusFromRules, hx, Bool.false_eq_true,
      if_false]
    exact ih (fun y hy => hxs y (List.mem_cons_of_mem x hy))

/-- Inversion of the success path of `setOutboundTag`: if anything was
written, the routing section existed, the rule list was non-empty, its last
rule satisfied the predicate, the write succeeded, and the written document
is the input with the last rule's outbound tag replaced. -/
theorem setOutboundTag_written_inv (config : XrayConfig)
    (routing : RoutingConfig) (writeOk restartOk : Bool) (tag : String)
    (config' : XrayConfig)
    (hr : config.routing = some routing)
    (hw : (setOutboundTag (.parsed config) writeOk restartOk tag).written =
      some config') :
    routing.rules ≠ [] ∧
    isTargetRule (routing.rules.getD (routing.rules.length - 1) default) = true ∧
    writeOk = true ∧
    config' = ⟨some ⟨routing.domainStrategy,
      routing.rules.set (routing.rules.length - 1)
        { routing.rules.getD (routing.rules.length - 1) default with
            outboundTag := tag }⟩⟩ := by
  simp only [List.getD_eq_getElem?_getD]
  by_cases h0 : routing.rules.length = 0
  · simp [setOutboundTag, hr, h0] at hw
  · by_cases ht : isTargetRule
        ((routing.rules[routing.rules.length - 1]?).getD default) = true
    · by_cases hwk : writeOk = true
      · refine ⟨fun hnil => h0 (by simp [hnil]), ht, hwk, ?_⟩
        simp [setOutboundTag, hr, h0, ht, hwk, List.getD_eq_getElem?_getD] at hw
        exact hw.symm
      · simp [setOutboundTag, hr, h0, ht, hwk, List.getD_eq_getElem?_getD] at hw
    · simp [setOutboundTag, hr, h0, ht, List.getD_eq_getElem?_getD] at hw

/-- C1: the spec claims `isTargetRule` accepts exactly the inbound-tag set
`{"redirect","tproxy"}` with no additional tags; the code also accepts a
rule carrying an extra inbound tag. -/
theorem c1_counterexample_extra_tag :
    isTargetRule extraTagRule = true ∧ specIsDefaultRule extraTagRule = false := by
  decide

/-- C1 (amended): the predicate `isTargetRule rule` is true iff the inbound-tag list
contains both `"redirect"` and `"tproxy"` (additional tags are permitted)
and the network string equals `"tcp,udp"`. -/
theorem c1_isTargetRule_characterization (rule : Rule) :
    isTargetRule rule = true ↔
      "redirect" ∈ rule.inboundTag ∧ "tproxy" ∈ rule.inboundTag ∧
      rule.network = "tcp,udp" :=
  isTargetRule_iff rule

/-- C2: when the last rule fails the target predicate, `setOutboundTag`
returns the structural error, writes nothing, and never reaches the
restart, whatever the earlier rules look like. -/
theorem c2_last_rule_guard (config : XrayConfig) (routing : RoutingConfig)
    (tag : String) (writeOk restartOk : Bool)
    (hr : config.routing = some routing)
    (hne : routing.rules ≠ [])
    (hlast : isTargetRule
        (routing.rules.getD (routing.rules.length - 1) default) = false) :
    (setOutboundTag (.parsed config) writeOk restartOk tag).err =
        some .lastRuleNotTarget ∧
    (setOutboundTag (.parsed config) writeOk restartOk tag).written = none := by
  have h0 : (routing.rules.length == 0) = false := by
    simp [List.length_eq_zero, hne]
  rw [List.getD_eq_getElem?_getD] at hlast
  simp [setOutboundTag, hr, h0, hlast]

/-- C2 witness: on `matchNotLastConfig` the first rule satisfies the
predicate but the last does not, and the mutation is refused. -/
theorem c2_witness :
    isTargetRule directDefaultRule = true ∧
    isTargetRule domainRule = false ∧
    ((setOutboundTag (.parsed matchNotLastConfig) true true "vless-reality").err =
        some .lastRuleNotTarget ∧
     (setOutboundTag (.parsed matchNotLastConfig) true true "vless-reality").written =
        none) :=
  ⟨by decide, by decide,
   c2_last_rule_guard matchNotLastConfig ⟨"IPIfNonMatch", [directDefaultRule, domainRule]⟩
     "vless-reality" true true rfl (by simp) (by decide)⟩

/-- C7: when the configuration write succeeds but the service restart
fails, `setOutboundTag` still returns success. -/
theorem c7_restart_failure_not_surfaced (rp : ReadParse) (tag : String)
    (config' : XrayConfig)
    (hw : (setOutboundTag rp true false tag).written = some config') :
    (setOutboundTag rp true false tag).err = none ∧
    (setOutboundTag rp true false tag).restartSucceeded = some false := by
  cases rp with
  | readFail => simp [setOutboundTag] at hw
  | parseFail => simp [setOutboundTag] at hw
  | parsed config =>
    cases hcr : config.routing with
    | none => simp [setOutboundTag, hcr] at hw
    | some routing =>
      obtain ⟨hne, ht, -, -⟩ :=
        setOutboundTag_written_inv config routing true false tag config' hcr hw
      have h0 : ¬(routing.rules.length = 0) := by
        simp [List.length_eq_zero, hne]
      rw [List.getD_eq_getElem?_getD] at ht
      simp [setOutboundTag, hcr, h0, ht]

/-- C7 witness: a concrete successful write with a failed restart. -/
theorem c7_witness :
    (setOutboundTag (.parsed singleRuleConfig) true false "vless-reality").written =
        some enabledSingleRuleConfig ∧
    ((setOutboundTag (.parsed singleRuleConfig) true false "vless-reality").err =
        none ∧
     (setOutboundTag
        (.parsed singleRuleConfig) true false "vless-reality").restartSucceeded =
        some false) :=
  ⟨rfl, c7_restart_failure_not_surfaced (.parsed singleRuleConfig)
    "vless-reality" enabledSingleRuleConfig rfl⟩

/-- C5: a successful mutation changes only the last rule's outbound tag:
the domain strategy, the rule count, every earlier rule, and every other
field of the last rule are preserved. -/
theorem c5_mutation_frame (config config' : XrayConfig)
    (routing : RoutingConfig) (writeOk restartOk : Bool) (tag : String)
    (hr : config.routing = some routing)
    (hw : (setOutboundTag (.parsed config) writeOk restartOk tag).written =
      some config') :
    ∃ routing', config'.routing = some routing' ∧
      routing'.domainStrategy = routing.domainStrategy ∧
      routing'.rules.length = routing.rules.length ∧
      (∀ i, i + 1 < routing.rules.length →
        routing'.rules[i]? = routing.rules[i]?) ∧
      (∀ r r', routing.rules[routing.rules.length - 1]? = some r →
        routing'.rules[routing.rules.length - 1]? = some r' →
        r'.outboundTag = tag ∧ r'.type = r.type ∧
        r'.inboundTag = r.inboundTag ∧ r'.network = r.network ∧
        r'.domain = r.domain ∧ r'.ip = r.ip ∧ r'.port = r.port ∧
        r'.protocol = r.protocol) := by
  obtain ⟨hne, ht, hwk, hcfg⟩ :=
    setOutboundTag_written_inv config routing writeOk restartOk tag config' hr hw
  subst hcfg
  refine ⟨_, rfl, rfl, List.length_set _ _ _, ?_, ?_⟩
  · intro i hi
    exact List.getElem?_set_ne (by omega)
  · intro r r' hr1 hr2
    have hlt : routing.rules.length - 1 < routing.rules.length := by
      have := List.length_pos.mpr hne
      omega
    rw [List.getElem?_set_self hlt] at hr2
    have hd : routing.rules.getD (routing.rules.length - 1) default = r := by
      rw [List.getD_eq_getElem?_getD, hr1]
      rfl
    rw [hd] at hr2
    injection hr2 with hr2
    subst hr2
    exact ⟨rfl, rfl, rfl, rfl, rfl, rfl, rfl, rfl⟩

/-- C5 witness: the concrete single-rule document. -/
theorem c5_witness :
    ∃ routing', enabledSingleRuleConfig.routing = some routing' ∧
      routing'.domainStrategy = "IPIfNonMatch" ∧
      routing'.rules.length = [directDefaultRule].length ∧
      (∀ i, i + 1 < [directDefaultRule].length →
        routing'.rules[i]? = [directDefaultRule][i]?) ∧
      (∀ r r', [directDefaultRule][[directDefaultRule].length - 1]? = some r →
        routing'.rules[[directDefaultRule].length - 1]? = some r' →
        r'.outboundTag = "vless-reality" ∧ r'.type = r.type ∧
        r'.inboundTag = r.inboundTag ∧ r'.network = r.network ∧
        r'.domain = r.domain ∧ r'.ip = r.ip ∧ r'.port = r.port ∧
        r'.protocol = r.protocol) :=
  c5_mutation_frame singleRuleConfig enabledSingleRuleConfig
    ⟨"IPIfNonMatch", [directDefaultRule]⟩ true true "vless-reality" rfl rfl

/-- C3 counterexample: on a document with two matching rules, `EnableVPN`
succeeds (it mutates the last rule) but `GetStatus` reads the first
matching rule and still reports Disabled. -/
theorem c3_counterexample_two_matching :
    (EnableVPN (.parsed twoMatchingConfig) true true).err = none ∧
    (EnableVPN (.parsed twoMatchingConfig) true true).written =
        some twoMatchingConfig ∧
    GetStatus (.parsed twoMatchingConfig) = (.disabled, none) ∧
    (VPNStatus.disabled, (none : Option VMErr)) ≠ (VPNStatus.enabled, none) :=
  ⟨rfl, rfl, rfl, by decide⟩

/-- C3 (amended): on a document where the mutation succeeds and no rule
before the last one satisfies the target predicate (as in any well-formed
document, where the matching rule is unique), mutating and then reading
the written document round-trips: enable yields Enabled, disable yields
Disabled. -/
theorem c3_roundtrip (config config' : XrayConfig) (routing : RoutingConfig)
    (writeOk restartOk : Bool) (tag : String)
    (hr : config.routing = some routing)
    (hprev : ∀ r ∈ routing.rules.dropLast, isTargetRule r = false)
    (hw : (setOutboundTag (.parsed config) writeOk restartOk tag).written =
      some config') :
    (tag = "vless-reality" → GetStatus (.parsed config') = (.enabled, none)) ∧
    (tag = "direct" → GetStatus (.parsed config') = (.disabled, none)) := by
  obtain ⟨hne, ht, -, hcfg⟩ :=
    setOutboundTag_written_inv config routing writeOk restartOk tag config' hr hw
  subst hcfg
  have hset : routing.rules.set (routing.rules.length - 1)
      { routing.rules.getD (routing.rules.length - 1) default with
          outboundTag := tag } =
      routing.rules.dropLast ++
        [{ routing.rules.getD (routing.rules.length - 1) default with
            outboundTag := tag }] :=
    set_last_eq_dropLast_append _ hne _
  have hmatch : isTargetRule
      { routing.rules.getD (routing.rules.length - 1) default with
          outboundTag := tag } = true := by
    rw [isTargetRule_setOutbound]
    exact ht
  have hscan := statusFromRules_append_last routing.rules.dropLast _ hprev hmatch
  have hvd : ("direct" == "vless-reality") = false := by decide
  refine ⟨fun htag => ?_, fun htag => ?_⟩ <;> subst htag <;>
    · show statusFromRules _ = _
      rw [hset, hscan]
      simp [hvd]

/-- C3 witness: enabling on the well-formed single-rule document, then
reading the written document, reports Enabled. -/
theorem c3_witness :
    GetStatus (.parsed enabledSingleRuleConfig) = (.enabled, none) :=
  (c3_roundtrip singleRuleConfig enabledSingleRuleConfig
      ⟨"IPIfNonMatch", [directDefaultRule]⟩ true true "vless-reality" rfl
      (by simp) rfl).1 rfl

/-- C4 counterexample: `ValidateConfiguration` accepts a document with two
rules matching the predicate, so "exactly one" is not enforced. -/
theorem c4_counterexample_two_matching :
    ValidateConfiguration (.parsed twoMatchingConfig) = none ∧
    [directDefaultRule, vpnDefaultRule].countP (fun r => isTargetRule r) = 2 :=
  ⟨rfl, rfl⟩

/-- C4 (amended): on a parsed document, validation succeeds iff the routing
section exists and at least one rule satisfies the target predicate. -/
theorem c4_validate_iff (config : XrayConfig) :
    ValidateConfiguration (.parsed config) = none ↔
      ∃ routing, config.routing = some routing ∧
        ∃ r ∈ routing.rules, isTargetRule r = true := by
  cases hcr : config.routing with
  | none => simp [ValidateConfiguration, hcr]
  | some routing =>
    by_cases h : routing.rules.any isTargetRule
    · simp only [ValidateConfiguration, hcr, h, if_true]
      simp [List.any_eq_true.mp h]
    · simp only [ValidateConfiguration, hcr, h, if_false]
      simp only [List.any_eq_true] at h
      simp [h]

/-- `statusFromRules` through `List.find?`: the scan returns the switch on
the first matching rule, or the not-found error. -/
theorem statusFromRules_eq_find (l : List Rule) :
    statusFromRules l =
      match l.find? isTargetRule with
      | none => (.unknown, some .targetRuleNotFound)
      | some r =>
        if r.outboundTag == "vless-reality" then (.enabled, none)
        else if r.outboundTag == "direct" then (.disabled, none)
        else (.unknown, none) := by
  induction l with
  | nil => rfl
  | cons x xs ih =>
    by_cases h : isTargetRule x
    · simp [statusFromRules, List.find?_cons_of_pos, h]
    · rw [List.find?_cons_of_neg _ h]
      simp only [statusFromRules, h, Bool.false_eq_true, if_false]
      exact ih

/-- C6: with a routing section present, a first matching rule with an
unrecognized outbound tag yields Unknown without error, while absence of
any matching rule yields the not-found error; the two outcomes differ. -/
theorem c6_unknown_tag_vs_no_match (config : XrayConfig)
    (routing : RoutingConfig) (hr : config.routing = some routing) :
    (∀ r, routing.rules.find? isTargetRule = some r →
      r.outboundTag ≠ "vless-reality" → r.outboundTag ≠ "direct" →
      GetStatus (.parsed config) = (.unknown, none)) ∧
    (routing.rules.find? isTargetRule = none →
      GetStatus (.parsed config) = (.unknown, some .targetRuleNotFound)) ∧
    (VPNStatus.unknown, (none : Option VMErr)) ≠
      (VPNStatus.unknown, some .targetRuleNotFound) := by
  have hg : GetStatus (.parsed config) = statusFromRules routing.rules := by
    simp [GetStatus, hr]
  refine ⟨?_, ?_, by decide⟩
  · intro r hfind hv hd
    have e1 : (r.outboundTag == "vless-reality") = false :=
      beq_eq_false_iff_ne.mpr hv
    have e2 : (r.outboundTag == "direct") = false :=
      beq_eq_false_iff_ne.mpr hd
    rw [hg, statusFromRules_eq_find, hfind]
    simp [e1, e2]
  · intro hfind
    rw [hg, statusFromRules_eq_find, hfind]

/-- C6 witness: the unrecognized-tag document and the no-match document. -/
theorem c6_witness :
    GetStatus (.parsed oddTagConfig) = (.unknown, none) ∧
    GetStatus (.parsed noMatchConfig) = (.unknown, some .targetRuleNotFound) :=
  ⟨(c6_unknown_tag_vs_no_match oddTagConfig
      ⟨"IPIfNonMatch", [{ directDefaultRule with outboundTag := "proxy-b" }]⟩
      rfl).1
    { directDefaultRule with outboundTag := "proxy-b" } rfl
    (by decide) (by decide),
   (c6_unknown_tag_vs_no_match noMatchConfig
      ⟨"IPIfNonMatch", [domainRule]⟩ rfl).2.1 rfl⟩

/-- Absence of an authorization entry, through `isUserAuthorized`. -/
theorem not_authorized_iff_none (c : AuthCache) (u : Int) :
    isUserAuthorized c u = false ↔ c u = none := by
  unfold isUserAuthorized
  cases c u <;> simp

/-- C8: authorizing `u` with state `s` makes `getCachedStatus u` return
`s`; for an unauthorized `u'`, `updateCachedStatus` leaves the cache
unchanged and `getCachedStatus` still returns Unknown. -/
theorem c8_cache_semantics (c : AuthCache) (u u' : Int) (s s' : VPNStatus)
    (h : isUserAuthorized c u' = false) :
    getCachedStatus (authorizeUser c u s) u = s ∧
    updateCachedStatus c u' s' = c ∧
    getCachedStatus c u' = .unknown := by
  have hn : c u' = none := (not_authorized_iff_none c u').mp h
  refine ⟨?_, ?_, ?_⟩
  · unfold getCachedStatus authorizeUser
    simp
  · unfold updateCachedStatus
    rw [hn]
  · unfold getCachedStatus
    rw [hn]

/-- C8 witness: concrete cache states. -/
theorem c8_witness :
    isUserAuthorized emptyCache 2 = false ∧
    (getCachedStatus (authorizeUser emptyCache 1 .enabled) 1 = .enabled ∧
     updateCachedStatus emptyCache 2 .disabled = emptyCache ∧
     getCachedStatus emptyCache 2 = .unknown) :=
  ⟨rfl, c8_cache_semantics emptyCache 1 2 .enabled .disabled rfl⟩

/-- One cache operation never removes an entry. -/
theorem isUserAuthorized_applyCacheOp (c : AuthCache) (u : Int)
    (op : CacheOp) (h : isUserAuthorized c u = true) :
    isUserAuthorized (applyCacheOp c op) u = true := by
  cases op with
  | authorize v s =>
    unfold applyCacheOp authorizeUser isUserAuthorized
    by_cases hv : u = v <;> simp [hv]
    · exact h
  | update v s =>
    show isUserAuthorized (updateCachedStatus c v s) u = true
    unfold updateCachedStatus
    cases hcv : c v with
    | none => exact h
    | some w =>
      unfold isUserAuthorized at h ⊢
      by_cases hv : u = v <;> simp [hv]
      · exact h

/-- C9: authorization is monotone — once `isUserAuthorized u` holds, it
still holds after any sequence of cache operations. -/
theorem c9_authorization_monotone (c : AuthCache) (u : Int)
    (ops : List CacheOp) (h : isUserAuthorized c u = true) :
    isUserAuthorized (ops.foldl applyCacheOp c) u = true := by
  induction ops generalizing c with
  | nil => exact h
  | cons op ops ih =>
    rw [List.foldl_cons]
    exact ih _ (isUserAuthorized_applyCacheOp c u op h)

/-- C9 witness: a concrete operation sequence over an authorized user. -/
theorem c9_witness :
    isUserAuthorized (authorizeUser emptyCache 1 .enabled) 1 = true ∧
    isUserAuthorized
      ([CacheOp.authorize 2 .disabled, CacheOp.update 1 .unknown,
        CacheOp.update 3 .enabled].foldl applyCacheOp
        (authorizeUser emptyCache 1 .enabled)) 1 = true :=
  ⟨rfl, c9_authorization_monotone (authorizeUser emptyCache 1 .enabled) 1
    [CacheOp.authorize 2 .disabled, CacheOp.update 1 .unknown,
     CacheOp.update 3 .enabled] rfl⟩

/-- A non-empty pattern is never contained in the empty string. -/
theorem listContains_nil_right (p : Char) (ps : List Char) :
    listContains (p :: ps) [] = false := rfl

/-- Containment of a non-empty pattern forces a non-empty string. -/
theorem ne_nil_of_listContains (p : Char) (ps l : List Char)
    (h : listContains (p :: ps) l = true) : l ≠ [] := by
  intro hl
  subst hl
  exact absurd h (by simp [listContains, listPrefixOf])

/-- The classification of `handleServiceStatus` on any status text: "not
running" iff the sanitized text contains the "не запущен" phrase, "running"
iff it does not but the sanitized text is non-empty, "unknown" iff the
sanitized text is empty. -/
theorem classifyServiceStatus_spec (s : List Char) :
    (classifyServiceStatus s = .notRunning ↔
      listContains "не запущен".data (cleanStatusText s) = true) ∧
    (classifyServiceStatus s = .running ↔
      listContains "не запущен".data (cleanStatusText s) = false ∧
      cleanStatusText s ≠ []) ∧
    (classifyServiceStatus s = .unknown ↔ cleanStatusText s = []) := by
  unfold classifyServiceStatus
  by_cases h1 : listContains "не запущен".data (cleanStatusText s) = true
  · have hne : cleanStatusText s ≠ [] :=
      ne_nil_of_listContains _ _ _ h1
    simp [h1, hne]
  · have h1' : listContains "не запущен".data (cleanStatusText s) = false := by
      revert h1
      cases listContains "не запущен".data (cleanStatusText s) <;> simp
    by_cases h2 : cleanStatusText s = []
    · rw [h2] at h1' ⊢
      simp [h1', listContains_nil_right]
    · simp [h1', h2]

/-- C10: over the whole pipeline — raw `xkeen -status` output cleaned by
`GetServiceStatus` (diagnostic-line and empty-line filtering) and then by
`handleServiceStatus` (ANSI stripping and trimming) — "not running" is
reported iff the sanitized text contains "не запущен"; otherwise "running"
is reported whenever the sanitized text is non-empty (even without the
"запущен" phrase); "unknown" is reported only for empty sanitized text. -/
theorem c10_service_status_default_running (raw : List Char) :
    (classifyServiceStatus (cleanServiceOutput raw) = .notRunning ↔
      listContains "не запущен".data
        (cleanStatusText (cleanServiceOutput raw)) = true) ∧
    (classifyServiceStatus (cleanServiceOutput raw) = .running ↔
      listContains "не запущен".data
        (cleanStatusText (cleanServiceOutput raw)) = false ∧
      cleanStatusText (cleanServiceOutput raw) ≠ []) ∧
    (classifyServiceStatus (cleanServiceOutput raw) = .unknown ↔
      cleanStatusText (cleanServiceOutput raw) = []) :=
  classifyServiceStatus_spec (cleanServiceOutput raw)

end VpnCommander
